import Mathlib

/-!
Shallow embedding of the override-lifecycle engine of the logger-trackerr
repository, together with theorems settling the frozen specification claims.

The repository bundles two iterations of the App component in
src/unnamed/part_004: an older one (lines 1-455) and the current engine
(lines 456-1422). Both are embedded below where a claim cites them; the
functions of the older iteration carry a Legacy suffix or marker.

Modelling conventions:
 - JS timestamps (milliseconds since epoch) are Int, so subtraction is exact.
 - A JS array of overrides is a List.
 - The JS Set of notified ids is a List String used only through membership.
 - JSON.parse outcomes are Option values: none models a payload that fails
   to parse (the catch branch leaves the state untouched).
 - Browser notifications are modelled as the event data the tick computes;
   the Notification.permission check only gates the host-platform display
   and is outside the engine state.
-/

namespace LoggerTracker

/-- Log severity levels, src/types.ts LogLevel. -/
inductive LogLevel where
  | trace
  | debug
  | info
  | warn
  | error
deriving DecidableEq, Repr

/-- In-memory override entry, src/types.ts ActiveOverride. The derived flag
isExpiringSoon is optional in TS; the engine always materialises it before
exposing a state, so it is a plain Bool here. -/
structure ActiveOverride where
  id : String
  serviceId : String
  serviceName : String
  envId : String
  level : LogLevel
  startTime : Int
  expiryTime : Int
  totalDuration : Int
  isExpiringSoon : Bool
deriving DecidableEq, Repr

/-- Persisted snapshot row: exactly the eight fields that remain after the
object-rest spread in the persistence effect (part_004 lines 763-769) strips
isExpiringSoon before writing to localStorage. -/
structure PersistedOverride where
  id : String
  serviceId : String
  serviceName : String
  envId : String
  level : LogLevel
  startTime : Int
  expiryTime : Int
  totalDuration : Int
deriving DecidableEq, Repr

/-- Threshold constant, src/unnamed/part_008 line 97: 60 * 1000 ms. -/
def EXPIRY_WARNING_THRESHOLD_MS : Int := 60 * 1000

/-- Per-entry derived-flag recomputation, the spread expression
o with isExpiringSoon set to expiryTime - now < EXPIRY_WARNING_THRESHOLD_MS
that appears verbatim in calculateDerivedState and in the tick. -/
def deriveEntry (now : Int) (o : ActiveOverride) : ActiveOverride :=
  { o with isExpiringSoon := decide (o.expiryTime - now < EXPIRY_WARNING_THRESHOLD_MS) }

/-- calculateDerivedState (part_004 lines 686-692): recompute the derived
flag for every entry as expiryTime - now < EXPIRY_WARNING_THRESHOLD_MS. -/
def calculateDerivedState (now : Int) (overrides : List ActiveOverride) :
    List ActiveOverride :=
  overrides.map (deriveEntry now)

/-- The object-rest spread stripping the derived flag before persisting. -/
def stripDerived (o : ActiveOverride) : PersistedOverride :=
  { id := o.id, serviceId := o.serviceId, serviceName := o.serviceName,
    envId := o.envId, level := o.level, startTime := o.startTime,
    expiryTime := o.expiryTime, totalDuration := o.totalDuration }

/-- Persisted snapshot written by a tab (part_004 lines 763-769). -/
def persistSnapshot (s : List ActiveOverride) : List PersistedOverride :=
  s.map stripDerived

/-- Hydration of a parsed snapshot row on ingestion: the JS code spreads the
row and computes the derived flag with the calculateDerivedState formula. -/
def hydrate (now : Int) (r : PersistedOverride) : ActiveOverride :=
  { id := r.id, serviceId := r.serviceId, serviceName := r.serviceName,
    envId := r.envId, level := r.level, startTime := r.startTime,
    expiryTime := r.expiryTime, totalDuration := r.totalDuration,
    isExpiringSoon := decide (r.expiryTime - now < EXPIRY_WARNING_THRESHOLD_MS) }

/-- Ingestion of a whole parsed snapshot: calculateDerivedState applied to
the parsed rows. -/
def hydrateList (now : Int) (rows : List PersistedOverride) :
    List ActiveOverride :=
  rows.map (hydrate now)

/-- Initial load at mount (part_004 lines 695-706): a missing key or a parse
failure (payload none) leaves the initial empty state; a parsed snapshot is
filtered to rows with expiryTime > now and then hydrated. -/
def initialLoad (payload : Option (List PersistedOverride)) (now : Int) :
    List ActiveOverride :=
  match payload with
  | none => []
  | some rows => hydrateList now (rows.filter fun r => decide (now < r.expiryTime))

/-- Storage-change ingestion (part_004 lines 728-740): a parse failure is
caught and the state is kept; a parsed snapshot replaces the state wholesale
after recomputing the derived flag. No expiry filtering happens here. -/
def handleStorageChange (payload : Option (List PersistedOverride)) (now : Int)
    (s : List ActiveOverride) : List ActiveOverride :=
  match payload with
  | none => s
  | some rows => hydrateList now rows

/-- Broadcast message ingestion for SYNC_REQUIRED or FORCE_POPUP
(part_004 lines 710-725): when the storage key is absent the local state is
merely recomputed; a stored payload that fails to parse is discarded inside
the catch; a parsed payload replaces the state. -/
def onBroadcastMessage (stored : Option (Option (List PersistedOverride)))
    (now : Int) (s : List ActiveOverride) : List ActiveOverride :=
  match stored with
  | none => calculateDerivedState now s
  | some none => s
  | some (some rows) => hydrateList now rows

/-- Result of one engine tick: the new state plus the event data computed
during the tick (part_004 lines 790-854). -/
structure TickResult where
  state : List ActiveOverride
  reverted : List ActiveOverride
  warnings : List ActiveOverride
  notified : List String
  forcePopup : Bool
deriving DecidableEq, Repr

/-- Step 1 of the engine tick (part_004 line 797): the expired partition,
which is also the batch named in the reverted alert. -/
def tickExpired (now : Int) (prev : List ActiveOverride) : List ActiveOverride :=
  prev.filter fun o => decide (o.expiryTime ≤ now)

/-- The notified set right after the expired ids are deleted from it
(part_004 line 808). -/
def tickNotifiedAfterExpiry (now : Int) (prev : List ActiveOverride)
    (notifiedIds : List String) : List String :=
  notifiedIds.filter fun i => ! (tickExpired now prev).any fun o => o.id == i

/-- Step 2 of the engine tick (part_004 lines 812-815): the surviving
entries with the derived flag recomputed. -/
def tickNext (now : Int) (prev : List ActiveOverride) : List ActiveOverride :=
  (prev.filter fun o => decide (now < o.expiryTime)).map (deriveEntry now)

/-- Step 3 of the engine tick (part_004 line 818): the entries needing a
warning alert, those expiring soon whose id is not yet in the notified set;
their ids are then added to the set. -/
def tickWarnings (now : Int) (prev : List ActiveOverride)
    (notifiedIds : List String) : List ActiveOverride :=
  (tickNext now prev).filter fun n =>
    n.isExpiringSoon && ! (tickNotifiedAfterExpiry now prev notifiedIds).contains n.id

/-- Step 4 of the engine tick (part_004 lines 842-848): the notified set
after adding the warned ids and dropping every id no longer expiring. -/
def tickNotified (now : Int) (prev : List ActiveOverride)
    (notifiedIds : List String) : List String :=
  (tickNotifiedAfterExpiry now prev notifiedIds ++
      (tickWarnings now prev notifiedIds).map (fun n => n.id)).filter
    fun i => (((tickNext now prev).filter fun o => o.isExpiringSoon).map
      (fun o => o.id)).contains i

/-- Engine tick (part_004 lines 792-852), one second worth of work:
partition out expired entries and fire the reverted alert for the whole
batch unconditionally, delete their ids from the notified set, recompute the
derived flag for the survivors, fire one warning per newly-expiring entry
not yet in the notified set and add those ids, emit the FORCE_POPUP pulse
while anything is expiring, and drop from the notified set every id no
longer in the expiring set. -/
def tick (now : Int) (prev : List ActiveOverride) (notifiedIds : List String) :
    TickResult :=
  { state := tickNext now prev,
    reverted := tickExpired now prev,
    warnings := tickWarnings now prev notifiedIds,
    notified := tickNotified now prev notifiedIds,
    forcePopup := (tickNext now prev).any fun n => n.isExpiringSoon }

/-- Result of a tick of the older App iteration (part_004 lines 212-227). -/
structure LegacyTickResult where
  state : List ActiveOverride
  reverted : List ActiveOverride
  notified : List String
deriving DecidableEq, Repr

/-- Tick of the older App iteration (part_004 lines 212-227): the reverted
alert for an expired entry fires only when its id is not already in the
notified set, and the id is then added; survivors get the derived flag
recomputed with the same formula. -/
def legacyTick (now : Int) (prev : List ActiveOverride)
    (notifiedIds : List String) : LegacyTickResult :=
  let expired := prev.filter fun o => decide (o.expiryTime ≤ now)
  let step := expired.foldl
    (fun acc o => if acc.1.contains o.id then acc else (o.id :: acc.1, acc.2 ++ [o]))
    (notifiedIds, ([] : List ActiveOverride))
  let next := (prev.filter fun o => decide (now < o.expiryTime)).map (deriveEntry now)
  { state := next, reverted := step.2, notified := step.1 }

/-- Entry pushed by handleApplyBulk on a successful apply (part_004 lines
894-904). The id is an opaque fresh random string, taken as a parameter. -/
def mkBulkEntry (freshId svcId svcName envId : String) (level : LogLevel)
    (now dur : Int) : ActiveOverride :=
  { id := freshId, serviceId := svcId, serviceName := svcName, envId := envId,
    level := level, startTime := now, expiryTime := now + dur,
    totalDuration := dur, isExpiringSoon := false }

/-- State update of handleApplyBulk (part_004 lines 912-921): when at least
one apply succeeded, drop every existing entry whose (serviceId, envId) key
collides with a successful new entry, append the new entries and recompute
the derived state for the whole resulting list. -/
def handleApplyBulk (now : Int) (successfulEntries : List ActiveOverride)
    (prev : List ActiveOverride) : List ActiveOverride :=
  if successfulEntries.isEmpty then prev
  else
    calculateDerivedState now
      ((prev.filter fun o =>
        ! successfulEntries.any fun n => n.serviceId == o.serviceId && n.envId == o.envId)
       ++ successfulEntries)

/-- Entry pushed by the older App iteration on create (part_004 lines
268-278): the id is serviceId-now and the flag starts false. -/
def mkApplyChangesEntry (svcId svcName envId : String) (level : LogLevel)
    (now dur : Int) : ActiveOverride :=
  { id := svcId ++ "-" ++ toString now, serviceId := svcId,
    serviceName := svcName, envId := envId, level := level, startTime := now,
    expiryTime := now + dur, totalDuration := dur, isExpiringSoon := false }

/-- State update of handleApplyChanges in the older App iteration (part_004
lines 281-284, demo branch line 254 identical in shape): drop every prior
entry whose serviceId is among the selected services, then append the new
entries. -/
def handleApplyChanges (selectedServices : List String)
    (newOverrides : List ActiveOverride) (prev : List ActiveOverride) :
    List ActiveOverride :=
  (prev.filter fun o => ! selectedServices.contains o.serviceId) ++ newOverrides

/-- Per-entry update of the optimistic per-id renewal handleRenewOverride
(part_004 lines 930-937): an entry with the matching id gets expiryTime now
+ totalDuration and the derived flag cleared. -/
def renewEntry (i : String) (now : Int) (o : ActiveOverride) : ActiveOverride :=
  if o.id == i then
    { o with expiryTime := now + o.totalDuration, isExpiringSoon := false }
  else o

/-- State update of handleRenewOverride, mapping renewEntry when the id is
present and leaving the state alone otherwise. -/
def handleRenewOverride (i : String) (now : Int) (prev : List ActiveOverride) :
    List ActiveOverride :=
  if prev.any (fun o => o.id == i) then prev.map (renewEntry i now) else prev

/-- Optimistic bulk renewal on keep, handleRenewAllExpiring (part_004 lines
959-966): every entry whose derived flag is set gets expiryTime now +
totalDuration and the flag cleared. -/
def handleRenewAllExpiring (now : Int) (prev : List ActiveOverride) :
    List ActiveOverride :=
  prev.map fun o =>
    if o.isExpiringSoon then
      { o with expiryTime := now + o.totalDuration, isExpiringSoon := false }
    else o

/-- handleAcceptAllResets (part_004 lines 988-990): remove exactly the
entries whose derived flag is set. -/
def handleAcceptAllResets (prev : List ActiveOverride) : List ActiveOverride :=
  prev.filter fun o => ! o.isExpiringSoon

/-- Keep handler of the older App iteration (part_004 line 307): every entry
matched in the captured expiring list gets expiryTime and totalDuration
extended by the fixed amount 600000 ms and the flag cleared. -/
def onKeepLegacy (expiring : List ActiveOverride) (prev : List ActiveOverride) :
    List ActiveOverride :=
  prev.map fun o =>
    if expiring.any (fun e => e.id == o.id) then
      { o with
        expiryTime := o.expiryTime + 600000,
        totalDuration := o.totalDuration + 600000,
        isExpiringSoon := false }
    else o

/-- Number of entries carrying a given (serviceId, envId) key. -/
def keyCount (l : List ActiveOverride) (sid eid : String) : Nat :=
  (l.filter fun o => o.serviceId == sid && o.envId == eid).length

/-- The store invariant of claim C1: at most one entry per (serviceId,
envId) key. Phrased over the members of the list so that it is decidable on
concrete stores; a key carried by no member trivially has count zero. -/
def UniqueKeys (l : List ActiveOverride) : Prop :=
  ∀ o ∈ l, keyCount l o.serviceId o.envId ≤ 1

instance UniqueKeys.instDecidable (l : List ActiveOverride) :
    Decidable (UniqueKeys l) :=
  inferInstanceAs (Decidable (∀ o ∈ l, keyCount l o.serviceId o.envId ≤ 1))

section Lemmas

theorem deriveEntry_id (now : Int) (o : ActiveOverride) :
    (deriveEntry now o).id = o.id := rfl

theorem deriveEntry_serviceId (now : Int) (o : ActiveOverride) :
    (deriveEntry now o).serviceId = o.serviceId := rfl

theorem deriveEntry_envId (now : Int) (o : ActiveOverride) :
    (deriveEntry now o).envId = o.envId := rfl

theorem deriveEntry_expiryTime (now : Int) (o : ActiveOverride) :
    (deriveEntry now o).expiryTime = o.expiryTime := rfl

theorem deriveEntry_totalDuration (now : Int) (o : ActiveOverride) :
    (deriveEntry now o).totalDuration = o.totalDuration := rfl

theorem deriveEntry_flag (now : Int) (o : ActiveOverride) :
    (deriveEntry now o).isExpiringSoon =
      decide (o.expiryTime - now < EXPIRY_WARNING_THRESHOLD_MS) := rfl

theorem stripDerived_deriveEntry (now : Int) (o : ActiveOverride) :
    stripDerived (deriveEntry now o) = stripDerived o := rfl

theorem filter_map_eq {α β : Type} (f : α → β) (p : β → Bool) (q : α → Bool)
    (hpq : ∀ a, p (f a) = q a) (l : List α) :
    (l.map f).filter p = (l.filter q).map f := by
  induction l with
  | nil => rfl
  | cons a t ih =>
    simp only [List.map_cons, List.filter_cons, hpq]
    cases h : q a <;> simp [h, ih]

theorem filter_swap {α : Type} (p q : α → Bool) (l : List α) :
    (l.filter p).filter q = (l.filter q).filter p := by
  induction l with
  | nil => rfl
  | cons a t ih =>
    cases hp : p a <;> cases hq : q a <;>
      simp [List.filter_cons, hp, hq, ih]

theorem contains_eq_true_iff (l : List String) (a : String) :
    l.contains a = true ↔ a ∈ l :=
  ⟨List.mem_of_elem_eq_true, List.elem_eq_true_of_mem⟩

theorem contains_filter_false (p : String → Bool) (l : List String) (a : String)
    (h : l.contains a = false) : (l.filter p).contains a = false := by
  by_contra hc
  rw [Bool.not_eq_false, contains_eq_true_iff] at hc
  have hm := List.mem_of_mem_filter hc
  rw [← contains_eq_true_iff] at hm
  rw [hm] at h
  exact Bool.true_eq_false.mp h

theorem tick_state_expiry (now : Int) (prev : List ActiveOverride)
    (notifiedIds : List String) :
    ∀ o ∈ (tick now prev notifiedIds).state, now < o.expiryTime := by
  intro o ho
  unfold tick tickNext at ho
  simp only [List.mem_map, List.mem_filter] at ho
  obtain ⟨y, ⟨_, hlt⟩, rfl⟩ := ho
  exact of_decide_eq_true hlt

end Lemmas

/-- Claim C9: a malformed persisted snapshot or sync message (a payload
whose JSON.parse throws, modelled by the none case of the parse outcome) is
discarded by every ingestion path, leaving the store in its last-known-good
state; the handlers are total functions, so no failure escapes into the
clock loop or the UI. -/
theorem malformedPayloadKeepsState (s : List ActiveOverride) (now : Int) :
    handleStorageChange none now s = s ∧
    onBroadcastMessage (some none) now s = s ∧
    initialLoad none now = [] :=
  ⟨rfl, rfl, rfl⟩

/-- Claim C6: the persisted snapshot strips exactly the derived flag and
keeps the eight persisted fields unchanged, and the write-then-ingest round
trip converges: after ingesting the snapshot of a store holding exactly the
unexpired override X, the receiving store holds exactly one entry equal to
X up to the recomputed isExpiringSoon flag, whatever its prior state. -/
theorem persistRoundTrip (X : ActiveOverride) (now : Int)
    (hunexpired : now < X.expiryTime) :
    (∀ o : ActiveOverride,
      (stripDerived o).id = o.id ∧
      (stripDerived o).serviceId = o.serviceId ∧
      (stripDerived o).serviceName = o.serviceName ∧
      (stripDerived o).envId = o.envId ∧
      (stripDerived o).level = o.level ∧
      (stripDerived o).startTime = o.startTime ∧
      (stripDerived o).expiryTime = o.expiryTime ∧
      (stripDerived o).totalDuration = o.totalDuration) ∧
    (∀ s : List ActiveOverride,
      handleStorageChange (some (persistSnapshot [X])) now s =
        [{ X with isExpiringSoon :=
            decide (X.expiryTime - now < EXPIRY_WARNING_THRESHOLD_MS) }]) :=
  ⟨fun _ => ⟨rfl, rfl, rfl, rfl, rfl, rfl, rfl, rfl⟩, fun _ => rfl⟩

/-- Witness for persistRoundTrip at a concrete override and clock. -/
theorem persistRoundTrip_witness :
    (0 : Int) <
      (⟨"w6", "svc6", "Svc6", "env", LogLevel.debug, 0, 100000, 100000, false⟩ :
        ActiveOverride).expiryTime ∧
    handleStorageChange
        (some (persistSnapshot
          [⟨"w6", "svc6", "Svc6", "env", LogLevel.debug, 0, 100000, 100000, false⟩]))
        0 [] =
      [{ (⟨"w6", "svc6", "Svc6", "env", LogLevel.debug, 0, 100000, 100000, false⟩ :
          ActiveOverride) with
        isExpiringSoon := decide ((100000 : Int) - 0 < EXPIRY_WARNING_THRESHOLD_MS) }] :=
  ⟨by decide,
   (persistRoundTrip
     ⟨"w6", "svc6", "Svc6", "env", LogLevel.debug, 0, 100000, 100000, false⟩
     0 (by decide)).2 []⟩

/-- Claim C2 counterexample: the renewal path does not recompute the flag
with the threshold formula, it assigns false outright. On a store entry
with totalDuration 0 and the flag set, renewing at now = 1000 yields
isExpiringSoon false while the formula expiryTime - now < 60000 yields
true on the resulting entry. -/
theorem derivedFlagRenewalMismatch :
    (handleRenewAllExpiring 1000
        [⟨"c2", "s2", "S2", "e", LogLevel.debug, 0, 500, 0, true⟩]).map
      (fun o => o.isExpiringSoon) = [false] ∧
    (handleRenewAllExpiring 1000
        [⟨"c2", "s2", "S2", "e", LogLevel.debug, 0, 500, 0, true⟩]).map
      (fun o => decide (o.expiryTime - 1000 < EXPIRY_WARNING_THRESHOLD_MS)) =
      [true] := by
  decide

/-- Claim C2 (amended): the threshold constant is 60000 ms and the flag is
computed as expiryTime - now < 60000 on the tick, on creation via
calculateDerivedState, and on snapshot ingestion; renewal instead assigns
false directly, which agrees with the formula exactly when the renewed
entry's totalDuration is at least 60000 ms (true of every UI-selectable
duration, the smallest being 120000 ms). -/
theorem derivedFlagFormula (now : Int) (l : List ActiveOverride)
    (rows : List PersistedOverride) (notifiedIds : List String) :
    EXPIRY_WARNING_THRESHOLD_MS = 60000 ∧
    (∀ o ∈ calculateDerivedState now l,
      o.isExpiringSoon = decide (o.expiryTime - now < 60000)) ∧
    (∀ o ∈ (tick now l notifiedIds).state,
      o.isExpiringSoon = decide (o.expiryTime - now < 60000)) ∧
    (∀ o ∈ hydrateList now rows,
      o.isExpiringSoon = decide (o.expiryTime - now < 60000)) ∧
    (∀ o ∈ l, o.isExpiringSoon = true →
      ∃ o' ∈ handleRenewAllExpiring now l,
        o'.id = o.id ∧ o'.expiryTime = now + o.totalDuration ∧
        o'.isExpiringSoon = false ∧
        (60000 ≤ o.totalDuration →
          o'.isExpiringSoon = decide (o'.expiryTime - now < 60000))) := by
  have hT : EXPIRY_WARNING_THRESHOLD_MS = 60000 := by decide
  refine ⟨hT, ?_, ?_, ?_, ?_⟩
  · intro o ho
    unfold calculateDerivedState at ho
    obtain ⟨y, _, rfl⟩ := List.mem_map.mp ho
    simp [deriveEntry, hT]
  · intro o ho
    unfold tick tickNext at ho
    simp only [List.mem_map] at ho
    obtain ⟨y, _, rfl⟩ := ho
    simp [deriveEntry, hT]
  · intro o ho
    unfold hydrateList at ho
    obtain ⟨y, _, rfl⟩ := List.mem_map.mp ho
    simp [hydrate, hT]
  · intro o ho hflag
    refine ⟨{ o with expiryTime := now + o.totalDuration, isExpiringSoon := false },
      ?_, rfl, rfl, rfl, ?_⟩
    · unfold handleRenewAllExpiring
      exact List.mem_map.mpr ⟨o, ho, by rw [if_pos hflag]⟩
    · intro hdur
      show false = decide ((now + o.totalDuration) - now < (60000 : Int))
      exact (decide_eq_false (by omega)).symm

/-- Witness for derivedFlagFormula at a concrete store, snapshot and
notified set. -/
theorem derivedFlagFormula_witness :
    EXPIRY_WARNING_THRESHOLD_MS = 60000 ∧
    (∀ o ∈ calculateDerivedState 0
        [⟨"w2", "s2", "S2", "e", LogLevel.info, 0, 30000, 120000, true⟩],
      o.isExpiringSoon = decide (o.expiryTime - 0 < 60000)) ∧
    (∀ o ∈ (tick 0
        [⟨"w2", "s2", "S2", "e", LogLevel.info, 0, 30000, 120000, true⟩] []).state,
      o.isExpiringSoon = decide (o.expiryTime - 0 < 60000)) ∧
    (∀ o ∈ hydrateList 0 [⟨"w2", "s2", "S2", "e", LogLevel.info, 0, 30000, 120000⟩],
      o.isExpiringSoon = decide (o.expiryTime - 0 < 60000)) ∧
    (∀ o ∈ [(⟨"w2", "s2", "S2", "e", LogLevel.info, 0, 30000, 120000, true⟩ :
        ActiveOverride)], o.isExpiringSoon = true →
      ∃ o' ∈ handleRenewAllExpiring 0
          [⟨"w2", "s2", "S2", "e", LogLevel.info, 0, 30000, 120000, true⟩],
        o'.id = o.id ∧ o'.expiryTime = 0 + o.totalDuration ∧
        o'.isExpiringSoon = false ∧
        (60000 ≤ o.totalDuration →
          o'.isExpiringSoon = decide (o'.expiryTime - 0 < 60000))) :=
  derivedFlagFormula 0
    [⟨"w2", "s2", "S2", "e", LogLevel.info, 0, 30000, 120000, true⟩]
    [⟨"w2", "s2", "S2", "e", LogLevel.info, 0, 30000, 120000⟩] []

/-- Claim C3 counterexample: the keep handler of the older App iteration
(part_004 line 307) extends the expiring entry by the fixed amount 600000 ms
instead of setting expiryTime to now + totalDuration: for an entry with
expiryTime 100000 and totalDuration 120000 resolved at now = 90000 the
result is 700000, not 90000 + 120000 = 210000. -/
theorem renewKeepLegacyFixedExtension :
    (onKeepLegacy
        [⟨"c3", "s3", "S3", "e", LogLevel.warn, 0, 100000, 120000, true⟩]
        [⟨"c3", "s3", "S3", "e", LogLevel.warn, 0, 100000, 120000, true⟩]).map
      (fun o => o.expiryTime) = [700000] ∧
    ¬ ((700000 : Int) = 90000 + 120000) := by
  decide

/-- Claim C3 (amended): the keep handler of the current engine,
handleRenewAllExpiring, wired to the decision modal and reading the live
state, gives every entry whose derived flag is set a new expiryTime of now
+ totalDuration (neither the original absolute end nor a fixed extension)
and clears its flag; the keep handler of the older App iteration instead
extends expiryTime and totalDuration by a fixed 600000 ms. -/
theorem renewAllSetsNowPlusDuration (now : Int) (l : List ActiveOverride)
    (o : ActiveOverride) (ho : o ∈ l) (hflag : o.isExpiringSoon = true) :
    ∃ o' ∈ handleRenewAllExpiring now l,
      o'.id = o.id ∧ o'.serviceId = o.serviceId ∧ o'.envId = o.envId ∧
      o'.expiryTime = now + o.totalDuration ∧
      o'.totalDuration = o.totalDuration ∧ o'.isExpiringSoon = false := by
  refine ⟨{ o with expiryTime := now + o.totalDuration, isExpiringSoon := false },
    ?_, rfl, rfl, rfl, rfl, rfl, rfl⟩
  unfold handleRenewAllExpiring
  exact List.mem_map.mpr ⟨o, ho, by rw [if_pos hflag]⟩

/-- Witness for renewAllSetsNowPlusDuration at a concrete expiring entry. -/
theorem renewAllSetsNowPlusDuration_witness :
    ∃ o' ∈ handleRenewAllExpiring 90000
        [⟨"w3", "s3", "S3", "e", LogLevel.warn, 0, 100000, 120000, true⟩],
      o'.id = "w3" ∧ o'.serviceId = "s3" ∧ o'.envId = "e" ∧
      o'.expiryTime = 90000 + 120000 ∧
      o'.totalDuration = 120000 ∧ o'.isExpiringSoon = false :=
  renewAllSetsNowPlusDuration 90000
    [⟨"w3", "s3", "S3", "e", LogLevel.warn, 0, 100000, 120000, true⟩]
    ⟨"w3", "s3", "S3", "e", LogLevel.warn, 0, 100000, 120000, true⟩
    (List.mem_singleton.mpr rfl) rfl

theorem renewEntry_preserves_id (i : String) (now : Int) (o : ActiveOverride) :
    (renewEntry i now o).id = o.id := by
  unfold renewEntry
  by_cases h : o.id == i <;> simp [h]

theorem renewEntry_comp (i : String) (n1 n2 : Int) (o : ActiveOverride) :
    renewEntry i n2 (renewEntry i n1 o) = renewEntry i n2 o := by
  unfold renewEntry
  by_cases h : o.id == i <;> simp [h]

theorem any_id_map_renew (i : String) (now : Int) (s : List ActiveOverride) :
    ((s.map (renewEntry i now)).any fun o => o.id == i) =
      (s.any fun o => o.id == i) := by
  induction s with
  | nil => rfl
  | cons a t ih => simp [List.any_cons, renewEntry_preserves_id, ih]

theorem map_renew_comp (i : String) (n1 n2 : Int) (s : List ActiveOverride) :
    (s.map (renewEntry i n1)).map (renewEntry i n2) = s.map (renewEntry i n2) := by
  induction s with
  | nil => rfl
  | cons a t ih => simp [List.map_cons, renewEntry_comp, ih]

/-- Claim C7: renewal is idempotent: renewing the same id twice in
succession equals renewing it once at the later clock, and the surviving
entry carries expiryTime equal to the latest now + totalDuration with no
accumulation from the first call. -/
theorem renewIdempotent (i : String) (n1 n2 : Int) (s : List ActiveOverride) :
    handleRenewOverride i n2 (handleRenewOverride i n1 s) =
      handleRenewOverride i n2 s ∧
    (∀ o ∈ s, o.id = i →
      { o with expiryTime := n2 + o.totalDuration, isExpiringSoon := false } ∈
        handleRenewOverride i n2 s) := by
  constructor
  · unfold handleRenewOverride
    by_cases h : s.any (fun o => o.id == i)
    · rw [if_pos h, if_pos ((any_id_map_renew i n1 s).trans h),
        map_renew_comp, if_pos h]
    · rw [if_neg h, if_neg h]
  · intro o ho hid
    have hany : s.any (fun o => o.id == i) = true :=
      List.any_eq_true.mpr ⟨o, ho, by simp [hid]⟩
    unfold handleRenewOverride
    rw [if_pos hany]
    refine List.mem_map.mpr ⟨o, ho, ?_⟩
    unfold renewEntry
    rw [if_pos (by simp [hid])]

/-- Witness for renewIdempotent at a concrete id, clocks and store. -/
theorem renewIdempotent_witness :
    handleRenewOverride "w7" 9000 (handleRenewOverride "w7" 5000
        [⟨"w7", "s7", "S7", "e", LogLevel.error, 0, 1000, 2000, true⟩]) =
      handleRenewOverride "w7" 9000
        [⟨"w7", "s7", "S7", "e", LogLevel.error, 0, 1000, 2000, true⟩] ∧
    (∀ o ∈ [(⟨"w7", "s7", "S7", "e", LogLevel.error, 0, 1000, 2000, true⟩ :
        ActiveOverride)], o.id = "w7" →
      { o with expiryTime := 9000 + o.totalDuration, isExpiringSoon := false } ∈
        handleRenewOverride "w7" 9000
          [⟨"w7", "s7", "S7", "e", LogLevel.error, 0, 1000, 2000, true⟩]) :=
  renewIdempotent "w7" 5000 9000
    [⟨"w7", "s7", "S7", "e", LogLevel.error, 0, 1000, 2000, true⟩]

/-- Claim C8 counterexample: storage-change ingestion does not filter
already-expired rows: ingesting a snapshot holding a row with expiryTime 5
at now = 10 leaves the store containing an entry whose expiryTime is in the
past. -/
theorem storageIngestKeepsExpiredRow :
    (handleStorageChange
        (some [⟨"c8", "s8", "S8", "e", LogLevel.info, 0, 5, 5⟩]) 10 []).map
      (fun o => o.expiryTime) = [5] ∧ ((5 : Int) ≤ 10) := by
  decide

/-- Claim C8 (amended): already-expired rows are filtered out only by the
startup ingestion; the storage-change and broadcast ingestion paths trust
the incoming snapshot wholesale after recomputing the derived flag, and any
expired row they ingest is removed at the next tick. -/
theorem ingestExpiryFiltering (rows : List PersistedOverride)
    (now now2 : Int) (s : List ActiveOverride) (notifiedIds : List String) :
    (∀ o ∈ initialLoad (some rows) now, now < o.expiryTime) ∧
    (handleStorageChange (some rows) now s = hydrateList now rows) ∧
    (onBroadcastMessage (some (some rows)) now s = hydrateList now rows) ∧
    (∀ o ∈ (tick now2 (handleStorageChange (some rows) now s) notifiedIds).state,
      now2 < o.expiryTime) := by
  refine ⟨?_, rfl, rfl, tick_state_expiry now2 _ notifiedIds⟩
  intro o ho
  unfold initialLoad hydrateList at ho
  simp only [List.mem_map, List.mem_filter] at ho
  obtain ⟨r, ⟨_, hr⟩, rfl⟩ := ho
  exact of_decide_eq_true hr

/-- Witness for ingestExpiryFiltering at a concrete snapshot holding one
expired and one live row. -/
theorem ingestExpiryFiltering_witness :
    (∀ o ∈ initialLoad
        (some [⟨"w8a", "s8", "S8", "e", LogLevel.info, 0, 5, 5⟩,
               ⟨"w8b", "s8b", "S8b", "e", LogLevel.info, 0, 900000, 900000⟩]) 10,
      (10 : Int) < o.expiryTime) ∧
    (handleStorageChange
        (some [⟨"w8a", "s8", "S8", "e", LogLevel.info, 0, 5, 5⟩,
               ⟨"w8b", "s8b", "S8b", "e", LogLevel.info, 0, 900000, 900000⟩]) 10 [] =
      hydrateList 10
        [⟨"w8a", "s8", "S8", "e", LogLevel.info, 0, 5, 5⟩,
         ⟨"w8b", "s8b", "S8b", "e", LogLevel.info, 0, 900000, 900000⟩]) ∧
    (onBroadcastMessage
        (some (some [⟨"w8a", "s8", "S8", "e", LogLevel.info, 0, 5, 5⟩,
               ⟨"w8b", "s8b", "S8b", "e", LogLevel.info, 0, 900000, 900000⟩])) 10 [] =
      hydrateList 10
        [⟨"w8a", "s8", "S8", "e", LogLevel.info, 0, 5, 5⟩,
         ⟨"w8b", "s8b", "S8b", "e", LogLevel.info, 0, 900000, 900000⟩]) ∧
    (∀ o ∈ (tick 20 (handleStorageChange
        (some [⟨"w8a", "s8", "S8", "e", LogLevel.info, 0, 5, 5⟩,
               ⟨"w8b", "s8b", "S8b", "e", LogLevel.info, 0, 900000, 900000⟩]) 10 [])
        []).state, (20 : Int) < o.expiryTime) :=
  ingestExpiryFiltering
    [⟨"w8a", "s8", "S8", "e", LogLevel.info, 0, 5, 5⟩,
     ⟨"w8b", "s8b", "S8b", "e", LogLevel.info, 0, 900000, 900000⟩] 10 20 [] []

/-- Claim C10: a tick leaves the eight persisted fields of every live entry
unchanged, touching only the derived flag, and accept-all-resets removes
exactly the entries whose derived flag is set, keeping every other entry
entirely unchanged. -/
theorem tickFrameAcceptFrame (now : Int) (prev : List ActiveOverride)
    (notifiedIds : List String) (o : ActiveOverride)
    (ho : o ∈ prev) (hlive : now < o.expiryTime) :
    (∀ (x : ActiveOverride) (c : Bool),
      stripDerived { x with isExpiringSoon := c } = stripDerived x) ∧
    deriveEntry now o ∈ (tick now prev notifiedIds).state ∧
    (∀ x ∈ (tick now prev notifiedIds).state,
      ∃ y ∈ prev, now < y.expiryTime ∧ stripDerived x = stripDerived y) ∧
    (∀ x ∈ prev, x.isExpiringSoon = false → x ∈ handleAcceptAllResets prev) ∧
    (∀ x ∈ handleAcceptAllResets prev, x ∈ prev ∧ x.isExpiringSoon = false) := by
  refine ⟨fun _ _ => rfl, ?_, ?_, ?_, ?_⟩
  · unfold tick
    exact List.mem_map.mpr
      ⟨o, List.mem_filter.mpr ⟨ho, decide_eq_true hlive⟩, rfl⟩
  · intro x hx
    unfold tick tickNext at hx
    simp only [List.mem_map, List.mem_filter] at hx
    obtain ⟨y, ⟨hy, hlt⟩, rfl⟩ := hx
    exact ⟨y, hy, of_decide_eq_true hlt, rfl⟩
  · intro x hx hflag
    unfold handleAcceptAllResets
    exact List.mem_filter.mpr ⟨hx, by simp [hflag]⟩
  · intro x hx
    unfold handleAcceptAllResets at hx
    rw [List.mem_filter] at hx
    exact ⟨hx.1, by simpa using hx.2⟩

/-- Witness for tickFrameAcceptFrame at a concrete two-entry store. -/
theorem tickFrameAcceptFrame_witness :
    (∀ (x : ActiveOverride) (c : Bool),
      stripDerived { x with isExpiringSoon := c } = stripDerived x) ∧
    deriveEntry 10 (⟨"wa", "sa", "Sa", "e", LogLevel.info, 0, 900000, 900000, false⟩ :
        ActiveOverride) ∈
      (tick 10 [⟨"wa", "sa", "Sa", "e", LogLevel.info, 0, 900000, 900000, false⟩,
                ⟨"wb", "sb", "Sb", "e", LogLevel.info, 0, 40000, 40000, true⟩] []).state ∧
    (∀ x ∈ (tick 10 [⟨"wa", "sa", "Sa", "e", LogLevel.info, 0, 900000, 900000, false⟩,
                ⟨"wb", "sb", "Sb", "e", LogLevel.info, 0, 40000, 40000, true⟩] []).state,
      ∃ y ∈ [(⟨"wa", "sa", "Sa", "e", LogLevel.info, 0, 900000, 900000, false⟩ :
          ActiveOverride), ⟨"wb", "sb", "Sb", "e", LogLevel.info, 0, 40000, 40000, true⟩],
        (10 : Int) < y.expiryTime ∧ stripDerived x = stripDerived y) ∧
    (∀ x ∈ [(⟨"wa", "sa", "Sa", "e", LogLevel.info, 0, 900000, 900000, false⟩ :
        ActiveOverride), ⟨"wb", "sb", "Sb", "e", LogLevel.info, 0, 40000, 40000, true⟩],
      x.isExpiringSoon = false →
      x ∈ handleAcceptAllResets
        [⟨"wa", "sa", "Sa", "e", LogLevel.info, 0, 900000, 900000, false⟩,
         ⟨"wb", "sb", "Sb", "e", LogLevel.info, 0, 40000, 40000, true⟩]) ∧
    (∀ x ∈ handleAcceptAllResets
        [⟨"wa", "sa", "Sa", "e", LogLevel.info, 0, 900000, 900000, false⟩,
         ⟨"wb", "sb", "Sb", "e", LogLevel.info, 0, 40000, 40000, true⟩],
      x ∈ [(⟨"wa", "sa", "Sa", "e", LogLevel.info, 0, 900000, 900000, false⟩ :
          ActiveOverride), ⟨"wb", "sb", "Sb", "e", LogLevel.info, 0, 40000, 40000, true⟩] ∧
      x.isExpiringSoon = false) :=
  tickFrameAcceptFrame 10
    [⟨"wa", "sa", "Sa", "e", LogLevel.info, 0, 900000, 900000, false⟩,
     ⟨"wb", "sb", "Sb", "e", LogLevel.info, 0, 40000, 40000, true⟩] []
    ⟨"wa", "sa", "Sa", "e", LogLevel.info, 0, 900000, 900000, false⟩
    (by simp) (by decide)

/-- Claim C4 counterexample: the tick of the older App iteration (part_004
lines 214-226) gates the reverted alert on the notified set: with the id
c4 already notified, the expired entry is removed from the store but no
reverted alert fires for it. -/
theorem legacyTickRevertGated :
    ((⟨"c4", "s4", "S4", "e", LogLevel.info, 0, 50, 50, true⟩ :
        ActiveOverride).expiryTime ≤ 100) ∧
    (legacyTick 100
        [⟨"c4", "s4", "S4", "e", LogLevel.info, 0, 50, 50, true⟩]
        ["c4"]).reverted = [] ∧
    (legacyTick 100
        [⟨"c4", "s4", "S4", "e", LogLevel.info, 0, 50, 50, true⟩]
        ["c4"]).state = [] := by
  decide

/-- Claim C4 (amended): in the engine tick every entry with expiryTime at
or below now is removed from the store that tick and appears in the
reverted-alert batch, which is computed independently of the notified set;
since the entry is gone from the resulting state, no later tick can fire a
reverted alert for it again. The tick of the older App iteration instead
suppresses the alert for an id already in the notified set. -/
theorem tickExpiryRemoval (now now2 : Int) (prev : List ActiveOverride)
    (notifiedIds notifiedIds2 : List String) (o : ActiveOverride)
    (ho : o ∈ prev) (hexp : o.expiryTime ≤ now) :
    ((tick now prev notifiedIds).reverted =
      prev.filter fun x => decide (x.expiryTime ≤ now)) ∧
    o ∈ (tick now prev notifiedIds).reverted ∧
    (∀ x ∈ (tick now prev notifiedIds).state, now < x.expiryTime) ∧
    o ∉ (tick now2 (tick now prev notifiedIds).state notifiedIds2).reverted := by
  refine ⟨rfl, List.mem_filter.mpr ⟨ho, decide_eq_true hexp⟩,
    tick_state_expiry now prev notifiedIds, ?_⟩
  intro hmem
  have hsub : o ∈ (tick now prev notifiedIds).state := by
    have : (tick now2 (tick now prev notifiedIds).state notifiedIds2).reverted =
        (tick now prev notifiedIds).state.filter
          fun x => decide (x.expiryTime ≤ now2) := rfl
    rw [this] at hmem
    exact List.mem_of_mem_filter hmem
  exact absurd hexp (not_le.mpr (tick_state_expiry now prev notifiedIds o hsub))

/-- Witness for tickExpiryRemoval at a concrete store holding one expired
and one live entry, with the expired id already in the notified set. -/
theorem tickExpiryRemoval_witness :
    ((tick 100 [⟨"w4", "s4", "S4", "e", LogLevel.info, 0, 50, 50, true⟩,
        ⟨"w4b", "s4b", "S4b", "e", LogLevel.info, 0, 900000, 900000, false⟩]
        ["w4"]).reverted =
      [(⟨"w4", "s4", "S4", "e", LogLevel.info, 0, 50, 50, true⟩ : ActiveOverride),
        ⟨"w4b", "s4b", "S4b", "e", LogLevel.info, 0, 900000, 900000, false⟩].filter
        fun x => decide (x.expiryTime ≤ 100)) ∧
    (⟨"w4", "s4", "S4", "e", LogLevel.info, 0, 50, 50, true⟩ : ActiveOverride) ∈
      (tick 100 [⟨"w4", "s4", "S4", "e", LogLevel.info, 0, 50, 50, true⟩,
        ⟨"w4b", "s4b", "S4b", "e", LogLevel.info, 0, 900000, 900000, false⟩]
        ["w4"]).reverted ∧
    (∀ x ∈ (tick 100 [⟨"w4", "s4", "S4", "e", LogLevel.info, 0, 50, 50, true⟩,
        ⟨"w4b", "s4b", "S4b", "e", LogLevel.info, 0, 900000, 900000, false⟩]
        ["w4"]).state, (100 : Int) < x.expiryTime) ∧
    (⟨"w4", "s4", "S4", "e", LogLevel.info, 0, 50, 50, true⟩ : ActiveOverride) ∉
      (tick 1100 (tick 100 [⟨"w4", "s4", "S4", "e", LogLevel.info, 0, 50, 50, true⟩,
        ⟨"w4b", "s4b", "S4b", "e", LogLevel.info, 0, 900000, 900000, false⟩]
        ["w4"]).state []).reverted :=
  tickExpiryRemoval 100 1100
    [⟨"w4", "s4", "S4", "e", LogLevel.info, 0, 50, 50, true⟩,
     ⟨"w4b", "s4b", "S4b", "e", LogLevel.info, 0, 900000, 900000, false⟩]
    ["w4"] []
    ⟨"w4", "s4", "S4", "e", LogLevel.info, 0, 50, 50, true⟩
    (by simp) (by decide)

theorem not_mem_of_contains_false (l : List String) (a : String)
    (h : l.contains a = false) : a ∉ l := by
  intro hm
  rw [(contains_eq_true_iff l a).mpr hm] at h
  exact Bool.true_eq_false.mp h

theorem tickNext_filter_id (now : Int) (prev : List ActiveOverride) (j : String) :
    (tickNext now prev).filter (fun x => x.id == j) =
      ((prev.filter (fun x => x.id == j)).filter
        (fun x => decide (now < x.expiryTime))).map (deriveEntry now) := by
  unfold tickNext
  rw [filter_map_eq (deriveEntry now) (fun x => x.id == j) (fun x => x.id == j)
    (fun a => rfl), filter_swap]

/-- Claim C5: when an override whose id is not yet in the notified set
crosses into the expiring set at a tick (still live, remaining lifetime
below the threshold), exactly one warning fires for its id that tick, the
id enters the notified set, and an immediately following tick at which the
override is still live fires no further warning for that id. The id is
assumed to occur on exactly one store entry. -/
theorem warningFiresOnce (now now2 : Int) (prev : List ActiveOverride)
    (notifiedIds : List String) (o : ActiveOverride)
    (hone : prev.filter (fun x => x.id == o.id) = [o])
    (hlive : now < o.expiryTime)
    (hsoon : o.expiryTime - now < EXPIRY_WARNING_THRESHOLD_MS)
    (hnew : notifiedIds.contains o.id = false) :
    ((tick now prev notifiedIds).warnings.filter (fun w => w.id == o.id) =
      [deriveEntry now o]) ∧
    ((tick now prev notifiedIds).notified.contains o.id = true) ∧
    (now2 < o.expiryTime →
      (tick now2 (tick now prev notifiedIds).state
          (tick now prev notifiedIds).notified).warnings.filter
        (fun w => w.id == o.id) = []) := by
  have hA : (tickNext now prev).filter (fun x => x.id == o.id) =
      [deriveEntry now o] := by
    rw [tickNext_filter_id, hone]
    have hd : decide (now < o.expiryTime) = true := decide_eq_true hlive
    simp [hd]
  have hn1 : (tickNotifiedAfterExpiry now prev notifiedIds).contains o.id = false :=
    contains_filter_false _ _ _ hnew
  have hflag : (deriveEntry now o).isExpiringSoon = true := by
    rw [deriveEntry_flag]
    exact decide_eq_true hsoon
  have hW : (tickWarnings now prev notifiedIds).filter (fun x => x.id == o.id) =
      [deriveEntry now o] := by
    unfold tickWarnings
    rw [filter_swap, hA]
    simp [hflag, hn1]
    exact not_mem_of_contains_false _ _ hn1
  have hdW : deriveEntry now o ∈ tickWarnings now prev notifiedIds := by
    refine List.mem_of_mem_filter (p := fun x => x.id == o.id) ?_
    rw [hW]
    exact List.mem_singleton_self _
  have hdN : deriveEntry now o ∈ tickNext now prev := by
    refine List.mem_of_mem_filter (p := fun x => x.id == o.id) ?_
    rw [hA]
    exact List.mem_singleton_self _
  have hcur : (((tickNext now prev).filter fun x => x.isExpiringSoon).map
      (fun x => x.id)).contains o.id = true := by
    rw [contains_eq_true_iff]
    exact List.mem_map.mpr
      ⟨deriveEntry now o, List.mem_filter.mpr ⟨hdN, hflag⟩, rfl⟩
  have hmemNN : (tickNotified now prev notifiedIds).contains o.id = true := by
    rw [contains_eq_true_iff]
    unfold tickNotified
    refine List.mem_filter.mpr ⟨?_, hcur⟩
    exact List.mem_append.mpr
      (Or.inr (List.mem_map.mpr ⟨deriveEntry now o, hdW, rfl⟩))
  refine ⟨hW, hmemNN, ?_⟩
  intro hlive2
  show (tickWarnings now2 (tickNext now prev)
      (tickNotified now prev notifiedIds)).filter (fun w => w.id == o.id) = []
  have hA2 : (tickNext now2 (tickNext now prev)).filter (fun x => x.id == o.id) =
      [deriveEntry now2 (deriveEntry now o)] := by
    rw [tickNext_filter_id, hA]
    have hd : decide (now2 < (deriveEntry now o).expiryTime) = true :=
      decide_eq_true hlive2
    simp [hd]
  have hexp2 : ((tickExpired now2 (tickNext now prev)).any
      fun x => x.id == o.id) = false := by
    rw [Bool.eq_false_iff]
    intro hany
    obtain ⟨x, hx, hid⟩ := List.any_eq_true.mp hany
    unfold tickExpired at hx
    rw [List.mem_filter] at hx
    have hxid : x ∈ (tickNext now prev).filter (fun y => y.id == o.id) :=
      List.mem_filter.mpr ⟨hx.1, hid⟩
    rw [hA, List.mem_singleton] at hxid
    subst hxid
    exact absurd (of_decide_eq_true hx.2) (not_le.mpr hlive2)
  have hn12 : (tickNotifiedAfterExpiry now2 (tickNext now prev)
      (tickNotified now prev notifiedIds)).contains o.id = true := by
    rw [contains_eq_true_iff]
    unfold tickNotifiedAfterExpiry
    refine List.mem_filter.mpr ⟨(contains_eq_true_iff _ _).mp hmemNN, ?_⟩
    rw [hexp2]
    rfl
  unfold tickWarnings
  rw [filter_swap, hA2]
  simp [hn12]
  exact fun _ => (contains_eq_true_iff _ _).mp hn12

/-- Witness for warningFiresOnce: one live entry crossing the threshold at
now = 50000, second tick at 51000. -/
theorem warningFiresOnce_witness :
    ((tick 50000 [⟨"w5", "s5", "S5", "e", LogLevel.info, 0, 100000, 100000, false⟩]
        []).warnings.filter (fun w => w.id ==
          (⟨"w5", "s5", "S5", "e", LogLevel.info, 0, 100000, 100000, false⟩ :
            ActiveOverride).id) =
      [deriveEntry 50000
        ⟨"w5", "s5", "S5", "e", LogLevel.info, 0, 100000, 100000, false⟩]) ∧
    ((tick 50000 [⟨"w5", "s5", "S5", "e", LogLevel.info, 0, 100000, 100000, false⟩]
        []).notified.contains
      (⟨"w5", "s5", "S5", "e", LogLevel.info, 0, 100000, 100000, false⟩ :
        ActiveOverride).id = true) ∧
    ((51000 : Int) <
      (⟨"w5", "s5", "S5", "e", LogLevel.info, 0, 100000, 100000, false⟩ :
        ActiveOverride).expiryTime →
      (tick 51000
          (tick 50000 [⟨"w5", "s5", "S5", "e", LogLevel.info, 0, 100000, 100000, false⟩]
            []).state
          (tick 50000 [⟨"w5", "s5", "S5", "e", LogLevel.info, 0, 100000, 100000, false⟩]
            []).notified).warnings.filter
        (fun w => w.id ==
          (⟨"w5", "s5", "S5", "e", LogLevel.info, 0, 100000, 100000, false⟩ :
            ActiveOverride).id) = []) :=
  warningFiresOnce 50000 51000
    [⟨"w5", "s5", "S5", "e", LogLevel.info, 0, 100000, 100000, false⟩] []
    ⟨"w5", "s5", "S5", "e", LogLevel.info, 0, 100000, 100000, false⟩
    (by decide) (by decide) (by decide) (by decide)

theorem filter_key_eq_single (succ : List ActiveOverride)
    (h : (succ.map fun o => (o.serviceId, o.envId)).Nodup)
    (n : ActiveOverride) (hn : n ∈ succ) :
    succ.filter (fun o => o.serviceId == n.serviceId && o.envId == n.envId) =
      [n] := by
  induction succ with
  | nil => cases hn
  | cons m t ih =>
    rw [List.map_cons, List.nodup_cons] at h
    obtain ⟨hm, ht⟩ := h
    rcases List.mem_cons.mp hn with rfl | hnt
    · have hnil : t.filter
          (fun o => o.serviceId == n.serviceId && o.envId == n.envId) = [] := by
        rw [List.filter_eq_nil_iff]
        intro a ha hpa
        obtain ⟨h1, h2⟩ := (Bool.and_eq_true _ _).mp hpa
        rw [beq_iff_eq] at h1 h2
        exact hm (List.mem_map.mpr ⟨a, ha, by rw [h1, h2]⟩)
      rw [List.filter_cons, if_pos (by simp), hnil]
    · have hpm : (m.serviceId == n.serviceId && m.envId == n.envId) = false := by
        rw [Bool.eq_false_iff]
        intro hpa
        obtain ⟨h1, h2⟩ := (Bool.and_eq_true _ _).mp hpa
        rw [beq_iff_eq] at h1 h2
        exact hm (List.mem_map.mpr ⟨n, hnt, by rw [h1, h2]⟩)
      rw [List.filter_cons, if_neg (by simp [hpm]), ih ht hnt]

theorem keyCount_le_one_of_nodup (l : List ActiveOverride)
    (h : (l.map fun o => (o.serviceId, o.envId)).Nodup) (sid eid : String) :
    keyCount l sid eid ≤ 1 := by
  induction l with
  | nil => simp [keyCount]
  | cons m t ih =>
    rw [List.map_cons, List.nodup_cons] at h
    obtain ⟨hm, ht⟩ := h
    unfold keyCount
    rw [List.filter_cons]
    by_cases hp : (m.serviceId == sid && m.envId == eid) = true
    · rw [if_pos (by simp [hp])]
      have hnil : t.filter (fun o => o.serviceId == sid && o.envId == eid) = [] := by
        rw [List.filter_eq_nil_iff]
        intro a ha hpa
        obtain ⟨h1, h2⟩ := (Bool.and_eq_true _ _).mp hpa
        obtain ⟨g1, g2⟩ := (Bool.and_eq_true _ _).mp hp
        rw [beq_iff_eq] at h1 h2 g1 g2
        exact hm (List.mem_map.mpr ⟨a, ha, by rw [h1, h2, g1, g2]⟩)
      simp [hnil]
    · rw [if_neg (by simp [hp])]
      exact ih ht

theorem keyCount_map_derive (now : Int) (l : List ActiveOverride)
    (sid eid : String) :
    keyCount (l.map (deriveEntry now)) sid eid = keyCount l sid eid := by
  unfold keyCount
  rw [filter_map_eq (deriveEntry now) _
    (fun o => o.serviceId == sid && o.envId == eid) (fun a => rfl),
    List.length_map]

theorem keyCount_append (l1 l2 : List ActiveOverride) (sid eid : String) :
    keyCount (l1 ++ l2) sid eid = keyCount l1 sid eid + keyCount l2 sid eid := by
  unfold keyCount
  rw [List.filter_append, List.length_append]

theorem keyCount_filter_le (q : ActiveOverride → Bool)
    (prev : List ActiveOverride) (sid eid : String) :
    keyCount (prev.filter q) sid eid ≤ keyCount prev sid eid := by
  unfold keyCount
  rw [filter_swap]
  exact List.length_filter_le _ _

theorem uniqueKeys_iff (l : List ActiveOverride) :
    UniqueKeys l ↔ ∀ sid eid, keyCount l sid eid ≤ 1 := by
  constructor
  · intro h sid eid
    by_cases hc : keyCount l sid eid = 0
    · omega
    · have hne : (l.filter fun o => o.serviceId == sid && o.envId == eid) ≠ [] := by
        intro hnil
        unfold keyCount at hc
        rw [hnil] at hc
        exact hc rfl
      obtain ⟨a, ha⟩ := List.exists_mem_of_ne_nil _ hne
      rw [List.mem_filter] at ha
      obtain ⟨h1, h2⟩ := (Bool.and_eq_true _ _).mp ha.2
      rw [beq_iff_eq] at h1 h2
      have := h a ha.1
      rwa [h1, h2] at this
  · intro h o _
    exact h o.serviceId o.envId

theorem keyCount_eq_zero_of_no_key (l : List ActiveOverride) (sid eid : String)
    (h : ∀ n ∈ l, n.serviceId = sid → n.envId ≠ eid) :
    keyCount l sid eid = 0 := by
  unfold keyCount
  have hnil : l.filter (fun o => o.serviceId == sid && o.envId == eid) = [] := by
    rw [List.filter_eq_nil_iff]
    intro a ha hpa
    obtain ⟨h1, h2⟩ := (Bool.and_eq_true _ _).mp hpa
    rw [beq_iff_eq] at h1 h2
    exact h a ha h1 h2
  rw [hnil]
  rfl

theorem append_key_le_one (base add : List ActiveOverride)
    (hadd : (add.map fun o => (o.serviceId, o.envId)).Nodup)
    (hbase : ∀ sid eid, keyCount base sid eid ≤ 1)
    (hdisj : ∀ n ∈ add, keyCount base n.serviceId n.envId = 0) :
    ∀ sid eid, keyCount (base ++ add) sid eid ≤ 1 := by
  intro sid eid
  rw [keyCount_append]
  by_cases hex : ∃ n ∈ add, n.serviceId = sid ∧ n.envId = eid
  · obtain ⟨n, hn, h1, h2⟩ := hex
    have hb : keyCount base sid eid = 0 := by
      rw [← h1, ← h2]
      exact hdisj n hn
    have ha : keyCount add sid eid ≤ 1 := keyCount_le_one_of_nodup add hadd sid eid
    omega
  · push_neg at hex
    have ha : keyCount add sid eid = 0 := keyCount_eq_zero_of_no_key add sid eid hex
    have hb := hbase sid eid
    omega

theorem bulkFiltered_key_nil (succ prev : List ActiveOverride)
    (n : ActiveOverride) (hn : n ∈ succ) :
    (prev.filter fun o =>
        ! succ.any fun m => m.serviceId == o.serviceId && m.envId == o.envId).filter
      (fun o => o.serviceId == n.serviceId && o.envId == n.envId) = [] := by
  rw [List.filter_eq_nil_iff]
  intro a ha hpa
  rw [List.mem_filter] at ha
  obtain ⟨h1, h2⟩ := (Bool.and_eq_true _ _).mp hpa
  rw [beq_iff_eq] at h1 h2
  have hany : (succ.any fun m =>
      m.serviceId == a.serviceId && m.envId == a.envId) = true :=
    List.any_eq_true.mpr ⟨n, hn, by rw [← h1, ← h2]; simp⟩
  rw [hany] at ha
  exact Bool.false_ne_true ha.2

theorem changesFiltered_key_nil (selected : List String)
    (prev : List ActiveOverride) (n : ActiveOverride)
    (hsel : selected.contains n.serviceId = true) :
    ((prev.filter fun o => ! selected.contains o.serviceId).filter
      (fun o => o.serviceId == n.serviceId && o.envId == n.envId)) = [] := by
  rw [List.filter_eq_nil_iff]
  intro a ha hpa
  rw [List.mem_filter] at ha
  obtain ⟨h1, _⟩ := (Bool.and_eq_true _ _).mp hpa
  rw [beq_iff_eq] at h1
  rw [h1, hsel] at ha
  exact Bool.false_ne_true ha.2

/-- Claim C1: both create operations in the repository keep at most one
override per (serviceId, envId) key: given a store satisfying the
invariant, the bulk create of the engine (handleApplyBulk) and the create
of the older App iteration (handleApplyChanges) preserve it, and for every
created entry the resulting store holds exactly one entry for its key,
namely the new entry itself (with its level and expiryTime, the derived
flag recomputed by the engine path), the prior entry having been removed.
The new entries are assumed to carry pairwise distinct keys, which the
source guarantees by building one entry per selected service id (a JS Set)
with a single environment. -/
theorem createSupersedesPerKey (now : Int) (succ prev : List ActiveOverride)
    (selected : List String) (newOs : List ActiveOverride)
    (hprev : UniqueKeys prev)
    (hsucc : (succ.map fun o => (o.serviceId, o.envId)).Nodup)
    (hnewOs : (newOs.map fun o => (o.serviceId, o.envId)).Nodup)
    (hsel : ∀ n ∈ newOs, selected.contains n.serviceId = true) :
    UniqueKeys (handleApplyBulk now succ prev) ∧
    (∀ n ∈ succ,
      (handleApplyBulk now succ prev).filter
        (fun o => o.serviceId == n.serviceId && o.envId == n.envId) =
      [deriveEntry now n]) ∧
    UniqueKeys (handleApplyChanges selected newOs prev) ∧
    (∀ n ∈ newOs,
      (handleApplyChanges selected newOs prev).filter
        (fun o => o.serviceId == n.serviceId && o.envId == n.envId) = [n]) := by
  have hprev' := (uniqueKeys_iff prev).mp hprev
  refine ⟨?_, ?_, ?_, ?_⟩
  · by_cases hE : succ = []
    · subst hE
      simpa [handleApplyBulk] using hprev
    · have hne : succ.isEmpty = false := by
        cases succ
        · exact absurd rfl hE
        · rfl
      unfold handleApplyBulk calculateDerivedState
      rw [if_neg (by simp [hne])]
      rw [uniqueKeys_iff]
      intro sid eid
      rw [keyCount_map_derive]
      refine append_key_le_one _ succ hsucc ?_ ?_ sid eid
      · intro sid' eid'
        exact le_trans (keyCount_filter_le _ prev sid' eid') (hprev' sid' eid')
      · intro n hn
        unfold keyCount
        rw [bulkFiltered_key_nil succ prev n hn]
        rfl
  · intro n hn
    have hne : succ.isEmpty = false := by
      cases succ
      · cases hn
      · rfl
    unfold handleApplyBulk calculateDerivedState
    rw [if_neg (by simp [hne])]
    rw [filter_map_eq (deriveEntry now) _
      (fun o => o.serviceId == n.serviceId && o.envId == n.envId) (fun a => rfl),
      List.filter_append, bulkFiltered_key_nil succ prev n hn,
      filter_key_eq_single succ hsucc n hn]
    rfl
  · unfold handleApplyChanges
    rw [uniqueKeys_iff]
    refine append_key_le_one _ newOs hnewOs ?_ ?_
    · intro sid' eid'
      exact le_trans (keyCount_filter_le _ prev sid' eid') (hprev' sid' eid')
    · intro n hn
      unfold keyCount
      rw [changesFiltered_key_nil selected prev n (hsel n hn)]
      rfl
  · intro n hn
    unfold handleApplyChanges
    rw [List.filter_append, changesFiltered_key_nil selected prev n (hsel n hn),
      filter_key_eq_single newOs hnewOs n hn]
    rfl

/-- Witness for createSupersedesPerKey: a store holding one override for
key (s1, e1); the bulk create supersedes it and the legacy create
supersedes by serviceId. -/
theorem createSupersedesPerKey_witness :
    UniqueKeys (handleApplyBulk 1000
      [⟨"n1", "s1", "S1", "e1", LogLevel.debug, 1000, 601000, 600000, false⟩]
      [⟨"p1", "s1", "S1", "e1", LogLevel.info, 0, 500000, 500000, false⟩]) ∧
    (∀ n ∈ [(⟨"n1", "s1", "S1", "e1", LogLevel.debug, 1000, 601000, 600000, false⟩ :
        ActiveOverride)],
      (handleApplyBulk 1000
        [⟨"n1", "s1", "S1", "e1", LogLevel.debug, 1000, 601000, 600000, false⟩]
        [⟨"p1", "s1", "S1", "e1", LogLevel.info, 0, 500000, 500000, false⟩]).filter
        (fun o => o.serviceId == n.serviceId && o.envId == n.envId) =
      [deriveEntry 1000 n]) ∧
    UniqueKeys (handleApplyChanges ["s1"]
      [⟨"m1", "s1", "S1", "e1", LogLevel.warn, 1000, 121000, 120000, false⟩]
      [⟨"p1", "s1", "S1", "e1", LogLevel.info, 0, 500000, 500000, false⟩]) ∧
    (∀ n ∈ [(⟨"m1", "s1", "S1", "e1", LogLevel.warn, 1000, 121000, 120000, false⟩ :
        ActiveOverride)],
      (handleApplyChanges ["s1"]
        [⟨"m1", "s1", "S1", "e1", LogLevel.warn, 1000, 121000, 120000, false⟩]
        [⟨"p1", "s1", "S1", "e1", LogLevel.info, 0, 500000, 500000, false⟩]).filter
        (fun o => o.serviceId == n.serviceId && o.envId == n.envId) = [n]) :=
  createSupersedesPerKey 1000
    [⟨"n1", "s1", "S1", "e1", LogLevel.debug, 1000, 601000, 600000, false⟩]
    [⟨"p1", "s1", "S1", "e1", LogLevel.info, 0, 500000, 500000, false⟩]
    ["s1"]
    [⟨"m1", "s1", "S1", "e1", LogLevel.warn, 1000, 121000, 120000, false⟩]
    (by decide) (by decide) (by decide) (by decide)

end LoggerTracker
